import Mathlib

/-!
Verification of the `init_blend.py` script of the repository
`everything-powershell`.

The script, run inside the host application's embedded Python
interpreter, is:

  line 1: import bpy, os
  line 2: filepath = os.path.join(os.getcwd(), "my_scene.blend")
  line 3: bpy.ops.wm.save_as_mainfile(filepath=filepath)
  line 4: print the confirmation line "Saved " followed by filepath
  line 5: comment: no exit call, the host stays open

We embed the script as a function from a host environment (the current
working directory, the host save operation's behaviour, and ambient
inputs the script never reads: environment variables and argv) to a
trace of observable events plus an outcome.
-/

/-- First character is the path separator, as Python's
`str.startswith("/")` on the byte level. -/
def startsWithSlash (s : String) : Bool :=
  match s.data with
  | [] => false
  | c :: _ => c = '/'

/-- Last character is the path separator, as Python's
`str.endswith("/")`. -/
def endsWithSlash (s : String) : Bool :=
  match s.data.getLast? with
  | some c => c = '/'
  | none => false

/-- Embedding of `posixpath.join(a, b)` for two arguments: if `b` is
absolute it wins; otherwise it is appended to `a`, inserting the
separator unless `a` is empty or already ends with it. -/
def posixJoin (a b : String) : String :=
  if startsWithSlash b then b
  else if a = "" || endsWithSlash a then a ++ b
  else a ++ "/" ++ b

/-- Observable events a run of the script could emit.  The vocabulary
is wider than what the script uses, so that frame properties (no exit
request, no direct file write, no other document edit) are statable. -/
inductive Event where
  | saveCall (path : String)
  | printLine (line : String)
  | exitRequest
  | fileWrite (path : String)
  | docEdit
deriving DecidableEq, Repr

/-- The host environment the script runs in: the process's current
working directory, the behaviour of the host save-as operation
(success, or an exception carried as a string), and ambient inputs the
script does not read. -/
structure HostEnv where
  cwd : String
  saveResult : String → Except String Unit
  envVars : String → Option String
  argv : List String

/-- Trace of one run: the events in the order they happened, and the
outcome (`ok` for normal completion, `error` for a propagated
exception). -/
structure RunResult where
  events : List Event
  outcome : Except String Unit
deriving Repr

/-- Lines the run wrote to standard output, in order. -/
def RunResult.stdoutLines (r : RunResult) : List String :=
  r.events.filterMap fun ev =>
    match ev with
    | Event.printLine s => some s
    | _ => none

/-- Paths passed to the host save operation, in order. -/
def RunResult.savedPaths (r : RunResult) : List String :=
  r.events.filterMap fun ev =>
    match ev with
    | Event.saveCall p => some p
    | _ => none

/-- Line 2 of the script: the destination path, the join of the
current working directory with the literal filename. -/
def destPath (env : HostEnv) : String :=
  posixJoin env.cwd "my_scene.blend"

/-- The whole script: compute the destination (line 2), invoke the
host save (line 3); on success print the confirmation (line 4) and
finish normally; on failure the exception propagates and nothing else
runs.  No exit request is ever issued (line 5). -/
def runInitBlend (env : HostEnv) : RunResult :=
  match env.saveResult (destPath env) with
  | Except.error e =>
    { events := [Event.saveCall (destPath env)]
      outcome := Except.error e }
  | Except.ok _ =>
    { events := [Event.saveCall (destPath env),
                 Event.printLine ("Saved " ++ destPath env)]
      outcome := Except.ok () }

/-- A concrete environment whose save always succeeds, with working
directory `/tmp/proj`. -/
def okEnv : HostEnv :=
  { cwd := "/tmp/proj"
    saveResult := fun _ => Except.ok ()
    envVars := fun _ => none
    argv := [] }

/-- A concrete environment whose save always fails. -/
def errEnv : HostEnv :=
  { cwd := "/tmp/proj"
    saveResult := fun _ => Except.error "disk full"
    envVars := fun _ => none
    argv := [] }

/-- Appending on the right keeps the leading separator. -/
theorem startsWithSlash_append (s t : String)
    (h : startsWithSlash s = true) :
    startsWithSlash (s ++ t) = true := by
  unfold startsWithSlash at h ⊢
  rw [String.data_append]
  cases hs : s.data with
  | nil => rw [hs] at h; simp at h
  | cons c cs => rw [hs] at h; simpa using h

/-- C1: for every absolute working directory, the destination path is
the join of the working directory with the literal filename
`my_scene.blend`, and that destination is itself absolute. -/
theorem destPath_is_join_and_absolute (env : HostEnv)
    (h : startsWithSlash env.cwd = true) :
    destPath env = posixJoin env.cwd "my_scene.blend" ∧
      startsWithSlash (destPath env) = true := by
  refine ⟨rfl, ?_⟩
  unfold destPath posixJoin
  have hb : startsWithSlash "my_scene.blend" = false := by decide
  rw [hb]
  simp only [Bool.false_eq_true, if_false]
  by_cases hc : env.cwd = "" || endsWithSlash env.cwd
  · rw [if_pos hc]
    exact startsWithSlash_append _ _ h
  · rw [if_neg hc]
    exact startsWithSlash_append _ _ (startsWithSlash_append _ _ h)

/-- Witness for C1 at working directory `/tmp/proj`; the destination
there is the literal `/tmp/proj/my_scene.blend`. -/
theorem destPath_is_join_and_absolute_witness :
    startsWithSlash okEnv.cwd = true ∧
      (destPath okEnv = posixJoin okEnv.cwd "my_scene.blend" ∧
        startsWithSlash (destPath okEnv) = true) ∧
      destPath okEnv = "/tmp/proj/my_scene.blend" :=
  ⟨by decide, destPath_is_join_and_absolute okEnv (by decide), by decide⟩

/-- C2: when the host save succeeds, the run writes exactly one line
to standard output, namely the word Saved followed by the destination
path. -/
theorem stdout_single_saved_line (env : HostEnv)
    (h : env.saveResult (destPath env) = Except.ok ()) :
    (runInitBlend env).stdoutLines = ["Saved " ++ destPath env] := by
  unfold runInitBlend
  rw [h]
  rfl

/-- Witness for C2: with working directory `/tmp/proj` and a
succeeding save, the sole output line is the expected literal. -/
theorem stdout_single_saved_line_witness :
    okEnv.saveResult (destPath okEnv) = Except.ok () ∧
      (runInitBlend okEnv).stdoutLines = ["Saved /tmp/proj/my_scene.blend"] :=
  ⟨rfl, (stdout_single_saved_line okEnv rfl).trans (by decide)⟩

/-- C3: when the host save fails, no line is printed to standard
output. -/
theorem no_stdout_on_failure (env : HostEnv) (e : String)
    (h : env.saveResult (destPath env) = Except.error e) :
    (runInitBlend env).stdoutLines = [] := by
  unfold runInitBlend
  rw [h]
  rfl

/-- Witness for C3 on a concrete failing environment. -/
theorem no_stdout_on_failure_witness :
    errEnv.saveResult (destPath errEnv) = Except.error "disk full" ∧
      (runInitBlend errEnv).stdoutLines = [] :=
  ⟨rfl, no_stdout_on_failure errEnv "disk full" rfl⟩

/-- C4: no run, successful or failing, ever emits a termination
request to the host process. -/
theorem no_exit_request (env : HostEnv) :
    (runInitBlend env).events.count Event.exitRequest = 0 := by
  unfold runInitBlend
  cases h : env.saveResult (destPath env) <;> simp [List.count_cons]

/-- C5: a failure of the host save propagates unmodified as the run's
outcome, with nothing printed and no second save attempt. -/
theorem failure_propagates_unmodified (env : HostEnv) (e : String)
    (h : env.saveResult (destPath env) = Except.error e) :
    (runInitBlend env).outcome = Except.error e ∧
      (runInitBlend env).stdoutLines = [] ∧
      (runInitBlend env).savedPaths = [destPath env] := by
  unfold runInitBlend
  rw [h]
  exact ⟨rfl, rfl, rfl⟩

/-- Witness for C5 on a concrete failing environment. -/
theorem failure_propagates_unmodified_witness :
    errEnv.saveResult (destPath errEnv) = Except.error "disk full" ∧
      ((runInitBlend errEnv).outcome = Except.error "disk full" ∧
        (runInitBlend errEnv).stdoutLines = [] ∧
        (runInitBlend errEnv).savedPaths = [destPath errEnv]) :=
  ⟨rfl, failure_propagates_unmodified errEnv "disk full" rfl⟩

/-- C6: on a successful run there is a single path that is both the
one passed to the host save operation and the one embedded in the
printed confirmation line. -/
theorem printed_path_matches_saved_path (env : HostEnv)
    (h : env.saveResult (destPath env) = Except.ok ()) :
    ∃ p, (runInitBlend env).savedPaths = [p] ∧
      (runInitBlend env).stdoutLines = ["Saved " ++ p] := by
  refine ⟨destPath env, ?_, ?_⟩ <;> (unfold runInitBlend; rw [h]; rfl)

/-- Witness for C6 on a concrete succeeding environment. -/
theorem printed_path_matches_saved_path_witness :
    okEnv.saveResult (destPath okEnv) = Except.ok () ∧
      ∃ p, (runInitBlend okEnv).savedPaths = [p] ∧
        (runInitBlend okEnv).stdoutLines = ["Saved " ++ p] :=
  ⟨rfl, printed_path_matches_saved_path okEnv rfl⟩

/-- C7: the event trace of any run is exactly the save call on the
destination, followed by the confirmation print when and only when the
save succeeded; no other step, branch or loop occurs. -/
theorem events_are_save_then_print (env : HostEnv) :
    (runInitBlend env).events =
      Event.saveCall (destPath env) ::
        (match env.saveResult (destPath env) with
          | Except.ok _ => [Event.printLine ("Saved " ++ destPath env)]
          | Except.error _ => []) := by
  unfold runInitBlend
  cases h : env.saveResult (destPath env) <;> rfl

/-- C8: the only observable effects of any run are the single save
call and at most one printed line; in particular no direct file write,
no document edit and no exit request appear in the trace. -/
theorem side_effects_frame (env : HostEnv) :
    (runInitBlend env).events = [Event.saveCall (destPath env)] ∨
      (runInitBlend env).events =
        [Event.saveCall (destPath env),
         Event.printLine ("Saved " ++ destPath env)] := by
  unfold runInitBlend
  cases h : env.saveResult (destPath env)
  · exact Or.inl rfl
  · exact Or.inr rfl

/-- C9: the run depends only on the working directory and the host
save behaviour; two environments agreeing on those, however much their
environment variables or argv differ, yield identical runs. -/
theorem run_reads_only_cwd_and_save (e₁ e₂ : HostEnv)
    (hcwd : e₁.cwd = e₂.cwd) (hsave : e₁.saveResult = e₂.saveResult) :
    destPath e₁ = destPath e₂ ∧ runInitBlend e₁ = runInitBlend e₂ := by
  have hd : destPath e₁ = destPath e₂ := by unfold destPath; rw [hcwd]
  refine ⟨hd, ?_⟩
  unfold runInitBlend
  rw [hd, hsave]

/-- Witness for C9: two environments with the same working directory
and save behaviour but different environment variables and argv. -/
theorem run_reads_only_cwd_and_save_witness :
    HostEnv.cwd
        { cwd := "/tmp/proj", saveResult := fun _ => Except.ok ()
          envVars := fun k => some k, argv := ["--factory-startup"] } =
      okEnv.cwd ∧
    (destPath
        { cwd := "/tmp/proj", saveResult := fun _ => Except.ok ()
          envVars := fun k => some k, argv := ["--factory-startup"] } =
      destPath okEnv ∧
    runInitBlend
        { cwd := "/tmp/proj", saveResult := fun _ => Except.ok ()
          envVars := fun k => some k, argv := ["--factory-startup"] } =
      runInitBlend okEnv) :=
  ⟨rfl, run_reads_only_cwd_and_save _ okEnv rfl rfl⟩

/-- C10: the script's own steps are total; the only way a run can end
in an error is that the host save operation itself produced exactly
that error at the destination path. -/
theorem only_save_can_fail (env : HostEnv) (e : String)
    (h : (runInitBlend env).outcome = Except.error e) :
    env.saveResult (destPath env) = Except.error e := by
  unfold runInitBlend at h
  cases hs : env.saveResult (destPath env) with
  | error e₀ => rw [hs] at h; simpa using h
  | ok u => rw [hs] at h; simp at h

/-- Witness for C10 on a concrete failing environment. -/
theorem only_save_can_fail_witness :
    (runInitBlend errEnv).outcome = Except.error "disk full" ∧
      errEnv.saveResult (destPath errEnv) = Except.error "disk full" :=
  ⟨rfl, only_save_can_fail errEnv "disk full" rfl⟩
